import Mathlib

/-!
Shallow embedding of the VulLink-Visualizer interactive graph component
(`GraphVisualization`): its data model, node-click selection handler,
display-text dispatch, force-configuration effects and text-fit truncation,
together with theorems checking the specification's claims against them.
-/

/-- A JavaScript value as observed by the display-text computation:
either a string or the JS `undefined` value (a property read on an
object that lacks the key). -/
inductive JSValue where
  | str : String → JSValue
  | undef : JSValue
deriving DecidableEq, Repr

/-- `NodeData` from `types/graph.ts`: `{ id, label, properties }`.
Properties are modelled as an association list from keys to string
values (the identifying properties read by the component are strings). -/
structure NodeData where
  id : String
  label : String
  properties : List (String × String)
deriving DecidableEq, Repr

/-- `LinkData` from `types/graph.ts`: `{ source, target, type? }`
with `type` optional. -/
structure LinkData where
  source : String
  target : String
  type : Option String
deriving DecidableEq, Repr

/-- `GraphData` from `types/graph.ts`: `{ nodes, links }`. -/
structure GraphData where
  nodes : List NodeData
  links : List LinkData
deriving DecidableEq, Repr

/-- JS property access `obj.key`: the value when present, `undefined`
when the key is absent. -/
def jsProp (props : List (String × String)) (key : String) : JSValue :=
  match props.lookup key with
  | some v => JSValue.str v
  | none => JSValue.undef

/-- `node.id.toString().startsWith('schema_')`: the schema-node test used
by `handleNodeClick`, `getNodeId` and `renderNode`, phrased over the
id's character list. -/
def isSchemaId (id : String) : Bool :=
  List.isPrefixOf "schema_".toList id.toList

/-- `getNodeId` from `GraphVisualization`: schema nodes display their
label; regular nodes dispatch on `label` to an identifying property;
unknown labels display `"Unknown"`. A property read on a node lacking
the key yields the JS `undefined` value. -/
def getNodeId (node : NodeData) : JSValue :=
  if isSchemaId node.id then JSValue.str node.label
  else
    match node.label with
    | "Vulnerability" => jsProp node.properties "cveID"
    | "Exploit" => jsProp node.properties "eid"
    | "Weakness" => jsProp node.properties "cweID"
    | "Product" => jsProp node.properties "productName"
    | "Vendor" => jsProp node.properties "vendorName"
    | "Author" => jsProp node.properties "authorName"
    | "Domain" => jsProp node.properties "domainName"
    | _ => JSValue.str "Unknown"

/-- The identifying property key chosen by `getNodeId`'s `switch` for a
known label, `none` for unknown labels (spec-side helper used only to
state theorems; `getNodeId` itself is the direct translation above). -/
def identifyingKey (label : String) : Option String :=
  match label with
  | "Vulnerability" => some "cveID"
  | "Exploit" => some "eid"
  | "Weakness" => some "cweID"
  | "Product" => some "productName"
  | "Vendor" => some "vendorName"
  | "Author" => some "authorName"
  | "Domain" => some "domainName"
  | _ => none

/-- `handleNodeClick`: given the current `selectedNode` state and the
clicked node, returns the new `selectedNode` state and the list of
`onNodeClick` notifications emitted (in order). Schema-prefixed ids
return early; clicking the node with the currently selected id clears
the selection silently; any other click selects the node and notifies. -/
def handleNodeClick (selected : Option NodeData) (node : NodeData) :
    Option NodeData × List NodeData :=
  if isSchemaId node.id then (selected, [])
  else
    match selected with
    | some sel =>
        if sel.id = node.id then (none, [])
        else (some node, [node])
    | none => (some node, [node])

/-- The link label used by the force setup: `link.type || ''`. -/
def linkLabel (l : LinkData) : String :=
  l.type.getD ""

/-- The force parameters the component configures on the simulation.
`linkDistance` is the per-link distance accessor; `Option` fields are
`none` when the component has not set that parameter (so the driver's
own default is in effect). -/
structure ForceState where
  linkDistance : LinkData → ℕ
  linkStrength : Option ℚ
  chargeStrength : ℚ
  chargeDistanceMax : Option ℕ
  centerStrength : ℚ
  collideRadius : ℚ
  collideStrength : Option ℚ

/-- The collision effect with deps `[nodeRadius]`: replaces the collide
force by `d3.forceCollide(node => nodeRadius*1.5)` (radius accessor set,
strength left at the library default). -/
def collideEffect (nodeRadius : ℚ) (st : ForceState) : ForceState :=
  { st with collideRadius := nodeRadius * 1.5, collideStrength := none }

/-- The force-configuration effect with deps `[nodeRadius, data]`:
per-label link distance `max(6*len*2, 60)`, link strength `0.5`, charge
`-500` with `distanceMax 300`, center `0.05`, and a fresh collide force
with radius `nodeRadius*1.8` and strength `0.5`. -/
def configEffect (nodeRadius : ℚ) (st : ForceState) : ForceState :=
  { st with
    linkDistance := fun l => max ((linkLabel l).length * 6 * 2) 60
    linkStrength := some 0.5
    chargeStrength := -500
    chargeDistanceMax := some 300
    centerStrength := 0.05
    collideRadius := nodeRadius * 1.8
    collideStrength := some 0.5 }

/-- The resize effect with deps `[containerWidth, containerHeight,
nodeRadius]`: center `0.05`, charge `-500` (its `distanceMax` untouched),
a constant link distance of `100` (link strength untouched), and a fresh
collide force with radius `nodeRadius*1.5` and library-default strength. -/
def resizeEffect (nodeRadius : ℚ) (st : ForceState) : ForceState :=
  { st with
    centerStrength := 0.05
    chargeStrength := -500
    linkDistance := fun _ => 100
    collideRadius := nodeRadius * 1.5
    collideStrength := none }

/-- `nodeRadius` derived from the container width:
`baseRadius = max(width/50, 10)`, floor-clamped to `10`. -/
def nodeRadiusOf (width : ℚ) : ℚ :=
  let baseRadius := max (width / 50) 10
  if baseRadius < 10 then 10 else baseRadius

/-- The component state tracked by `GraphVisualization`: the `data` prop,
the `selectedNode` state, the configured forces and the observed
container dimensions. -/
structure CompState where
  data : GraphData
  selectedNode : Option NodeData
  forces : ForceState
  containerWidth : ℚ
  containerHeight : ℚ

/-- The discrete events driving the component: a node click, dismissing
the detail panel via its close button, replacement of the `data` prop,
and a viewport resize reported by the observers. -/
inductive Event where
  | clickNode : NodeData → Event
  | dismiss : Event
  | newData : GraphData → Event
  | resize : ℚ → ℚ → Event

/-- One reactive step of the component: the state update performed for an
event together with the `onNodeClick` notifications emitted. Effects
re-run exactly when a dependency changed: replacing `data` re-runs only
the force-configuration effect; a resize re-runs the collision and
configuration effects when `nodeRadius` changed and the resize effect
when any of its deps changed. No event other than clicks and the panel's
close button touches `selectedNode`. -/
def step (st : CompState) : Event → CompState × List NodeData
  | Event.clickNode n =>
      let r := handleNodeClick st.selectedNode n
      ({ st with selectedNode := r.1 }, r.2)
  | Event.dismiss => ({ st with selectedNode := none }, [])
  | Event.newData d =>
      ({ st with
          data := d
          forces := configEffect (nodeRadiusOf st.containerWidth) st.forces }, [])
  | Event.resize w h =>
      let r := nodeRadiusOf st.containerWidth
      let r' := nodeRadiusOf w
      let f1 := if r' ≠ r then configEffect r' (collideEffect r' st.forces)
                else st.forces
      let f2 := if w ≠ st.containerWidth ∨ h ≠ st.containerHeight ∨ r' ≠ r
                then resizeEffect r' f1 else f1
      ({ st with containerWidth := w, containerHeight := h, forces := f2 }, [])

/-- The `graphData` prop handed to the `ForceGraph2D` simulation driver:
the component passes its `data` prop verbatim (`graphData={data}`),
with no filtering or transformation. -/
def graphDataProp (data : GraphData) : GraphData :=
  data

/-- Whether every endpoint id of `l` occurs among `nodes`' ids. -/
def linkResolvable (nodes : List NodeData) (l : LinkData) : Bool :=
  (nodes.any fun n => n.id = l.source) && (nodes.any fun n => n.id = l.target)

/-- The string `'...'` appended by the truncation loop, as characters. -/
def ellipsis : List Char := ['.', '.', '.']

set_option linter.unusedVariables false in
/-- The truncation loop of `renderNode`:
`while (measureText(truncated + '...').width > maxW && truncated.length > 0)
   truncated = truncated.slice(0, -1)`.
`m` abstracts `ctx.measureText(·).width` at the current font. The
hypothesis binder of the condition is needed only by the termination
argument. -/
def trimLoop (m : List Char → ℚ) (maxW : ℚ) (t : List Char) : List Char :=
  if h : maxW < m (t ++ ellipsis) ∧ t ≠ [] then
    trimLoop m maxW t.dropLast
  else t
termination_by t.length
decreasing_by
  have hpos : 0 < t.length := List.length_pos.mpr h.2
  simp only [List.length_dropLast]
  omega

/-- The text-fit step of `renderNode`: `maxTextWidth = nodeRadius * 1.6`;
if the measured width of the display string exceeds it, run the
truncation loop and append the ellipsis, otherwise draw the string
unchanged. -/
def fitText (m : List Char → ℚ) (nodeRadius : ℚ) (s : List Char) : List Char :=
  let maxW := nodeRadius * (1.6 : ℚ)
  if maxW < m s then trimLoop m maxW s ++ ellipsis else s

theorem trimLoop_spec (m : List Char → ℚ) (maxW : ℚ) (t : List Char) :
    m (trimLoop m maxW t ++ ellipsis) ≤ maxW ∨ trimLoop m maxW t = [] := by
  generalize hn : t.length = n
  induction n using Nat.strong_induction_on generalizing t with
  | _ n ih =>
    rw [trimLoop]
    by_cases h : maxW < m (t ++ ellipsis) ∧ t ≠ []
    · rw [dif_pos h]
      subst hn
      refine ih t.dropLast.length ?_ t.dropLast rfl
      cases t with
      | nil => exact absurd rfl h.2
      | cons a l => simp [List.length_dropLast]
    · rw [dif_neg h]
      rcases not_and_or.mp h with h1 | h2
      · exact Or.inl (le_of_not_lt h1)
      · exact Or.inr (not_not.mp h2)

theorem trimLoop_len_le (m : List Char → ℚ) (maxW : ℚ) (t : List Char) :
    (trimLoop m maxW t).length ≤ t.length := by
  generalize hn : t.length = n
  induction n using Nat.strong_induction_on generalizing t with
  | _ n ih =>
    rw [trimLoop]
    by_cases h : maxW < m (t ++ ellipsis) ∧ t ≠ []
    · rw [dif_pos h]
      subst hn
      have hlt : t.dropLast.length < t.length := by
        cases t with
        | nil => exact absurd rfl h.2
        | cons a l => simp [List.length_dropLast]
      exact le_of_lt (lt_of_le_of_lt (ih t.dropLast.length hlt t.dropLast rfl) hlt)
    · rw [dif_neg h]
      exact hn.le

theorem trimLoop_of_ellipsis_wide (m : List Char → ℚ) (maxW : ℚ)
    (hmono : ∀ u : List Char, m ellipsis ≤ m (u ++ ellipsis))
    (hw : maxW < m ellipsis) (t : List Char) : trimLoop m maxW t = [] := by
  generalize hn : t.length = n
  induction n using Nat.strong_induction_on generalizing t with
  | _ n ih =>
    rw [trimLoop]
    cases t with
    | nil => simp
    | cons a l =>
      have hcond : maxW < m ((a :: l) ++ ellipsis) ∧ (a :: l) ≠ [] :=
        ⟨lt_of_lt_of_le hw (hmono (a :: l)), by simp⟩
      simp only [hcond, dif_pos]
      subst hn
      refine ih (a :: l).dropLast.length ?_ _ rfl
      simp [List.length_dropLast]

/-- C6: for every display string and every `nodeRadius`, the text drawn
after the text-fit step has measured width at most `nodeRadius * 1.6`,
ellipsis included, provided the canvas measure gives the bare ellipsis
itself a width within that budget; the trimming loop is a total function
(`trimLoop` terminates on every input because the candidate strictly
shrinks), so a result exists for every input, down to the empty
string. -/
theorem fitText_width_le (m : List Char → ℚ) (nodeRadius : ℚ) (s : List Char)
    (h : m ellipsis ≤ nodeRadius * (1.6 : ℚ)) :
    m (fitText m nodeRadius s) ≤ nodeRadius * (1.6 : ℚ) := by
  unfold fitText
  by_cases hs : nodeRadius * (1.6 : ℚ) < m s
  · simp only [hs, if_pos]
    rcases trimLoop_spec m (nodeRadius * (1.6 : ℚ)) s with hle | hnil
    · exact hle
    · rw [hnil, List.nil_append]; exact h
  · simpa [hs] using le_of_not_lt hs

theorem fitText_eq_self (m : List Char → ℚ) (nodeRadius : ℚ) (x : List Char)
    (h : ¬ nodeRadius * (1.6 : ℚ) < m x) : fitText m nodeRadius x = x := by
  unfold fitText
  simp [h]

/-- C7: the text-fit computation is idempotent — applying it to its own
output returns that output unchanged — for every input string and
`nodeRadius`, provided the canvas measure never gives a string extended
on the left of the ellipsis a smaller width than the bare ellipsis (true
of any width measure that is nonnegative and monotone under
concatenation). -/
theorem fitText_idem (m : List Char → ℚ) (nodeRadius : ℚ) (s : List Char)
    (hmono : ∀ u : List Char, m ellipsis ≤ m (u ++ ellipsis)) :
    fitText m nodeRadius (fitText m nodeRadius s) = fitText m nodeRadius s := by
  by_cases hs : nodeRadius * (1.6 : ℚ) < m s
  · have hx : fitText m nodeRadius s = trimLoop m (nodeRadius * (1.6 : ℚ)) s ++ ellipsis := by
      unfold fitText; simp [hs]
    by_cases hx2 : nodeRadius * (1.6 : ℚ) < m (fitText m nodeRadius s)
    · rcases trimLoop_spec m (nodeRadius * (1.6 : ℚ)) s with hle | hnil
      · rw [hx] at hx2
        exact absurd hle (not_le.mpr hx2)
      · have hxe : fitText m nodeRadius s = ellipsis := by
          rw [hx, hnil, List.nil_append]
        have hwide : nodeRadius * (1.6 : ℚ) < m ellipsis := by
          rw [hxe] at hx2; exact hx2
        rw [hxe]
        unfold fitText
        simp only [hwide, if_pos]
        rw [trimLoop_of_ellipsis_wide m (nodeRadius * (1.6 : ℚ)) hmono hwide ellipsis,
          List.nil_append]
    · exact fitText_eq_self m nodeRadius _ hx2
  · have hx : fitText m nodeRadius s = s := fitText_eq_self m nodeRadius s hs
    rw [hx, hx]

example : isSchemaId "schema_Vulnerability" = true := by decide
example : isSchemaId "node1" = false := by decide
example : getNodeId ⟨"n1", "Mystery", [("x", "y")]⟩ = JSValue.str "Unknown" := by decide
example : getNodeId ⟨"n1", "Vulnerability", []⟩ = JSValue.undef := by decide
example : getNodeId ⟨"n1", "Vulnerability", [("cveID", "CVE-2021-1")]⟩
    = JSValue.str "CVE-2021-1" := by decide

/-! Concrete fixtures taken from the repository's tests and the spec's
scenario section. -/

/-- The vulnerability node of the spec's scenario. -/
def nodeV : NodeData := ⟨"n1", "Vulnerability", [("cveID", "CVE-2021-1")]⟩

/-- The exploit node of the spec's scenario. -/
def nodeE : NodeData := ⟨"n2", "Exploit", [("eid", "E1")]⟩

/-- A schema node as produced by the schema convenience queries. -/
def schemaNode : NodeData :=
  ⟨"schema_Vulnerability", "Vulnerability", [("schemaNodeType", "label")]⟩

/-- A known-label node whose identifying property is absent. -/
def nodeMissing : NodeData := ⟨"n3", "Vulnerability", []⟩

/-- The scenario's link. -/
def sampleLink : LinkData := ⟨"n1", "n2", some "EXPLOITS"⟩

/-- A link whose `target` id is not present in the node set. -/
def danglingLink : LinkData := ⟨"n1", "ghost", some "EXPLOITS"⟩

/-- A link with a ten-character relationship label. -/
def longLink : LinkData := ⟨"n1", "n2", some "REFERENCES"⟩

/-- Force parameters before the component's effects have run, using the
simulation driver's documented defaults; no theorem depends on these
values. -/
def initForces : ForceState :=
  { linkDistance := fun _ => 30
    linkStrength := none
    chargeStrength := -30
    chargeDistanceMax := none
    centerStrength := 1
    collideRadius := 0
    collideStrength := none }

/-- A component state holding the scenario data with `nodeV` selected in
a 500x500 container. -/
def st0 : CompState :=
  { data := ⟨[nodeV, nodeE], [sampleLink]⟩
    selectedNode := some nodeV
    forces := initForces
    containerWidth := 500
    containerHeight := 500 }

/-- A second result set, replacing the scenario data. -/
def newDataSet : GraphData := ⟨[nodeE], []⟩

/-- A result set containing a dangling link. -/
def danglingData : GraphData := ⟨[nodeV], [danglingLink]⟩

/-- C8: clicking a node whose id starts with the schema marker leaves the
selection state unchanged, from `NoSelection` and from every selected
state alike, and emits no node-activated notification. -/
theorem schema_click_noop (sel : Option NodeData) (n : NodeData)
    (h : isSchemaId n.id = true) :
    handleNodeClick sel n = (sel, []) := by
  unfold handleNodeClick
  simp [h]

/-- Witness for `schema_click_noop` at a selected state and at
`NoSelection`, with the schema node of the test fixtures. -/
theorem schema_click_noop_w :
    handleNodeClick (some nodeV) schemaNode = (some nodeV, [])
    ∧ handleNodeClick none schemaNode = (none, []) :=
  ⟨schema_click_noop (some nodeV) schemaNode (by decide),
   schema_click_noop none schemaNode (by decide)⟩

/-- C9: in state `NodeSelected(n0)`, clicking a regular node with the
same id clears the selection, and clicking a regular node with a
different id replaces the selection and emits exactly one notification
carrying that node's full data. (The selection is an `Option NodeData`,
so it can never hold more than one node.) -/
theorem selected_state_click (n0 node : NodeData)
    (h : isSchemaId node.id = false) :
    (node.id = n0.id → handleNodeClick (some n0) node = (none, []))
    ∧ (node.id ≠ n0.id → handleNodeClick (some n0) node = (some node, [node])) := by
  have h' : ¬ (isSchemaId node.id = true) := by simp [h]
  constructor
  · intro heq
    unfold handleNodeClick
    rw [if_neg h']
    show (if n0.id = node.id then ((none : Option NodeData), ([] : List NodeData))
          else (some node, [node])) = (none, [])
    rw [if_pos heq.symm]
  · intro hne
    unfold handleNodeClick
    rw [if_neg h']
    show (if n0.id = node.id then ((none : Option NodeData), ([] : List NodeData))
          else (some node, [node])) = (some node, [node])
    rw [if_neg fun hh => hne hh.symm]

/-- Witness for `selected_state_click`: re-clicking `nodeV` toggles the
selection off; clicking `nodeE` replaces it and notifies with `nodeE`. -/
theorem selected_state_click_w :
    handleNodeClick (some nodeV) nodeV = (none, [])
    ∧ handleNodeClick (some nodeV) nodeE = (some nodeE, [nodeE]) :=
  ⟨(selected_state_click nodeV nodeV (by decide)).1 rfl,
   (selected_state_click nodeV nodeE (by decide)).2 (by decide)⟩

/-- C10: the toggle-close transition emits no notification — clicking the
currently selected regular node clears the selection with an empty
emission list — and, conversely, any click that does emit a
notification is one that leaves that node newly selected. -/
theorem toggle_close_silent :
    (∀ n0 node : NodeData, isSchemaId node.id = false → node.id = n0.id →
      handleNodeClick (some n0) node = (none, []))
    ∧ ∀ (sel : Option NodeData) (node x : NodeData),
        x ∈ (handleNodeClick sel node).2 →
        x = node ∧ (handleNodeClick sel node).1 = some node := by
  constructor
  · intro n0 node h heq
    have h' : ¬ (isSchemaId node.id = true) := by simp [h]
    unfold handleNodeClick
    rw [if_neg h']
    show (if n0.id = node.id then ((none : Option NodeData), ([] : List NodeData))
          else (some node, [node])) = (none, [])
    rw [if_pos heq.symm]
  · intro sel node x hx
    unfold handleNodeClick at hx ⊢
    by_cases h : isSchemaId node.id
    · simp [h] at hx
    · cases sel with
      | none => simp [h] at hx ⊢; exact hx
      | some s =>
          by_cases hid : s.id = node.id
          · simp [h, hid] at hx
          · simp [h, hid] at hx ⊢; exact hx

/-- Witness for `toggle_close_silent`: toggling `nodeE` off emits
nothing; the one emission of a switching click is the newly selected
node. -/
theorem toggle_close_silent_w :
    handleNodeClick (some nodeE) nodeE = (none, [])
    ∧ (nodeE = nodeE ∧ (handleNodeClick (some nodeV) nodeE).1 = some nodeE) :=
  ⟨toggle_close_silent.1 nodeE nodeE (by decide) rfl,
   toggle_close_silent.2 (some nodeV) nodeE nodeE (by decide)⟩

/-- C4 counterexample: a `Vulnerability` node with no `cveID` property —
`getNodeId` yields the JS `undefined` value, not a placeholder string
such as `"Unknown"`. -/
theorem missing_property_yields_undef :
    getNodeId nodeMissing = JSValue.undef
    ∧ JSValue.undef ≠ JSValue.str "Unknown" := by decide

/-- C4 amended: the display-text computation is a total function
(`getNodeId` never throws in the model); a regular node whose label is
not one of the known types yields the literal `"Unknown"`; but a regular
node of a known type reads its identifying property directly, so when
that property is absent the result is the JS `undefined` value rather
than a placeholder string. -/
theorem getNodeId_dispatch (n : NodeData) :
    (isSchemaId n.id = false → identifyingKey n.label = none →
      getNodeId n = JSValue.str "Unknown")
    ∧ ∀ k, isSchemaId n.id = false → identifyingKey n.label = some k →
      getNodeId n = jsProp n.properties k := by
  constructor
  · intro h hk
    unfold getNodeId
    rw [if_neg (by simp [h])]
    unfold identifyingKey at hk
    split at hk <;> simp_all [getNodeId]
  · intro k h hk
    unfold getNodeId
    rw [if_neg (by simp [h])]
    unfold identifyingKey at hk
    split at hk <;> simp_all [getNodeId]

/-- Witness for `getNodeId_dispatch`: an unknown label displays
`"Unknown"`; the fixture with a missing `cveID` resolves through its
identifying key to the absent-property read. -/
theorem getNodeId_dispatch_w :
    getNodeId ⟨"n9", "Mystery", []⟩ = JSValue.str "Unknown"
    ∧ getNodeId nodeMissing = jsProp nodeMissing.properties "cveID" :=
  ⟨(getNodeId_dispatch ⟨"n9", "Mystery", []⟩).1 (by decide) rfl,
   (getNodeId_dispatch nodeMissing).2 "cveID" (by decide) rfl⟩

/-- C2 counterexample: from the state `st0` (which has `nodeV` selected),
replacing the `GraphData` prop by a different result set leaves the
selection on `nodeV` instead of clearing it. -/
theorem selection_survives_data_change :
    ((step st0 (Event.newData newDataSet)).1).selectedNode = some nodeV
    ∧ st0.data ≠ newDataSet
    ∧ some nodeV ≠ (none : Option NodeData) :=
  ⟨rfl, by decide, by decide⟩

/-- C2 amended: replacing the `GraphData` prop never changes the
selection state (and emits no notification); the component has no effect
that clears `selectedNode` when `data` changes, so a selection survives
the arrival of a new result set until a click or the panel's close
button clears it. -/
theorem data_change_preserves_selection (st : CompState) (d : GraphData) :
    ((step st (Event.newData d)).1).selectedNode = st.selectedNode
    ∧ (step st (Event.newData d)).2 = []
    ∧ ((step st (Event.newData d)).1).data = d :=
  ⟨rfl, rfl, rfl⟩

/-- C3 counterexample: the data handed to the simulation driver is the
`data` prop verbatim, so a link whose `target` id is absent from the
node set is still present in the handed-over link set. -/
theorem dangling_link_not_filtered :
    danglingLink ∈ (graphDataProp danglingData).links
    ∧ linkResolvable danglingData.nodes danglingLink = false := by decide

/-- C3 amended: the component performs no dangling-link filtering — the
`GraphData` prop is passed unchanged (`graphData={data}`) to the
simulation driver, links included, so any handling of a link whose
endpoint id is missing from the node set is left to the external
driver. -/
theorem graph_data_passed_verbatim (d : GraphData) :
    (graphDataProp d).links = d.links ∧ (graphDataProp d).nodes = d.nodes :=
  ⟨rfl, rfl⟩

/-- C1 counterexample: after a viewport-resize event the resize effect
has overridden the per-label link distance with the constant `100`, so a
link labelled `"REFERENCES"` (ten characters, requiring
`max(6*10*2, 60) = 120`) is configured shorter than the claimed bound. -/
theorem resize_overrides_link_distance :
    ((step st0 (Event.resize 500 400)).1).forces.linkDistance longLink = 100
    ∧ ¬ max (6 * (linkLabel longLink).length * 2) 60 ≤ 100 := by
  constructor
  · show (step st0 (Event.resize 500 400)).1.forces.linkDistance longLink = 100
    norm_num [step, st0, nodeRadiusOf, resizeEffect, initForces]
  · decide

/-- C1 amended: after a data-change (or `nodeRadius`-change) run of the
force-configuration effect, every link's configured distance is exactly
`max(6*len(type)*2, 60)` — so the claimed lower bound holds there — but
every run of the resize effect replaces it with the constant `100`, so
the bound does not persist across viewport resizes. -/
theorem link_distance_by_label_until_resize :
    (∀ (st : CompState) (d : GraphData) (l : LinkData),
      ((step st (Event.newData d)).1).forces.linkDistance l
        = max (6 * (linkLabel l).length * 2) 60)
    ∧ ∀ (r : ℚ) (f : ForceState) (l : LinkData),
        (resizeEffect r f).linkDistance l = 100 := by
  constructor
  · intro st d l
    show max ((linkLabel l).length * 6 * 2) 60 = max (6 * (linkLabel l).length * 2) 60
    generalize (linkLabel l).length = k
    omega
  · intro r f l
    rfl

/-- C5 counterexample: applied to the same starting forces and the same
`nodeRadius = 10`, the resize recomputation and the data-change
recomputation disagree — already on the configured distance of the
scenario's `EXPLOITS` link (`100` versus `max(6*8*2, 60) = 96`). -/
theorem resize_vs_config_disagree :
    (resizeEffect 10 initForces).linkDistance sampleLink = 100
    ∧ (configEffect 10 initForces).linkDistance sampleLink = 96
    ∧ (100 : ℕ) ≠ 96 := by decide

/-- C5 amended: the resize recomputation is not the same as the
data-change recomputation: for equal `(nodeRadius, data)` they agree on
the center strength (`0.05`) and charge strength (`-500`), but resize
sets a constant link distance of `100` instead of the per-label
distance, a collision radius of `nodeRadius*1.5` with the driver's
default strength instead of `nodeRadius*1.8` with strength `0.5`, and
leaves link strength and the charge's maximum distance untouched instead
of setting `0.5` and `300`. -/
theorem resize_vs_config_effects (r : ℚ) (f : ForceState) :
    (resizeEffect r f).centerStrength = (configEffect r f).centerStrength
    ∧ (resizeEffect r f).chargeStrength = (configEffect r f).chargeStrength
    ∧ (resizeEffect r f).collideRadius = r * 1.5
    ∧ (configEffect r f).collideRadius = r * 1.8
    ∧ (resizeEffect r f).collideStrength = none
    ∧ (configEffect r f).collideStrength = some 0.5
    ∧ (resizeEffect r f).linkStrength = f.linkStrength
    ∧ (configEffect r f).linkStrength = some 0.5
    ∧ (resizeEffect r f).chargeDistanceMax = f.chargeDistanceMax
    ∧ (configEffect r f).chargeDistanceMax = some 300
    ∧ (∀ l, (resizeEffect r f).linkDistance l = 100)
    ∧ ∀ l, (configEffect r f).linkDistance l
        = max ((linkLabel l).length * 6 * 2) 60 :=
  ⟨rfl, rfl, rfl, rfl, rfl, rfl, rfl, rfl, rfl, rfl, fun _ => rfl, fun _ => rfl⟩

/-- The fixed-width text estimate of the spec (`6` units per character),
used as a concrete instance of the abstract canvas measure in
witnesses. -/
def measure6 : List Char → ℚ := fun l => 6 * l.length

/-- Witness for `fitText_width_le`: under the spec's six-units-per-
character estimate and `nodeRadius = 20`, fitting a long CVE identifier
gives a string measuring within `20 * 1.6 = 32`. -/
theorem fitText_width_le_w :
    measure6 (fitText measure6 20 "CVE-2021-44228-LOG4SHELL".toList)
      ≤ 20 * (1.6 : ℚ) :=
  fitText_width_le measure6 20 "CVE-2021-44228-LOG4SHELL".toList
    (by norm_num [measure6, ellipsis])

/-- Witness for `fitText_idem`: under the six-units-per-character
estimate and `nodeRadius = 10`, re-fitting the fitted CVE identifier
returns it unchanged. -/
theorem fitText_idem_w :
    fitText measure6 10 (fitText measure6 10 "CVE-2021-44228".toList)
      = fitText measure6 10 "CVE-2021-44228".toList :=
  fitText_idem measure6 10 "CVE-2021-44228".toList (by
    intro u
    have h0 : (0 : ℚ) ≤ (u.length : ℚ) := Nat.cast_nonneg _
    simp only [measure6, ellipsis, List.length_append]
    push_cast
    linarith)
